import Mathlib

/-!
Shallow embedding of `src/textual_date_spinner/spinner.py`: a `NumberSpinner`
widget (a bounded integer input with up/down buttons) and a `BasicDatePicker`
composed of three spinners (day, month, year).

Modelling conventions:
* The textual `Input` content is an `Option Int`: `none` is the empty string,
  `some n` the digit string of `n`.  The widget strips non-digit characters as
  the user types, and programmatic writes store `str(int)`, so every non-empty
  content parses as an integer.
* Textual messages (`NumberSpinner.NumberChanged`, `NumberSpinner.ButtonSpin`)
  are posted to a queue and handled after the posting handler returns.  The
  queue is modelled explicitly: handlers return lists of the `NumberChanged`
  parts they posted, which are then processed in FIFO order.  A `NumberChanged`
  whose handling provably changes no state (the one re-posted when `validate`
  clamps the day via the Input, which would only re-run the idempotent
  `validate`/no-op day handler) is elided from the queue.
* `calendar.monthrange(y, m)[1]` is embedded as `monthrange_days` and
  `datetime.date`'s constructor acceptance as `pydate_ok`
  (`MINYEAR = 1`, `MAXYEAR = 9999`).
-/

/-- The state of a `NumberSpinner`: its bounds and its `Input`'s content. -/
structure NumberSpinner where
  min : Int
  max : Int
  text : Option Int
deriving DecidableEq, Repr

/-- `NumberSpinner.value` property getter: `int(self.input.value)`, with a
parse failure (empty text) falling back to `self.min`. -/
def NumberSpinner.value (s : NumberSpinner) : Int :=
  s.text.getD s.min

/-- `NumberSpinner.value` property setter: `self.input.value = str(value)`.
The `NumberChanged` it posts is delivered through the owner's queue. -/
def NumberSpinner.set_value (s : NumberSpinner) (v : Int) : NumberSpinner :=
  { s with text := some v }

/-- `NumberSpinner.set_value_no_msg`: `self.input.value = str(value)`. -/
def NumberSpinner.set_value_no_msg (s : NumberSpinner) (v : Int) : NumberSpinner :=
  { s with text := some v }

/-- `NumberSpinner.number_valid`: `self.min <= self.value <= self.max`. -/
def NumberSpinner.number_valid (s : NumberSpinner) : Bool :=
  decide (s.min ≤ s.value ∧ s.value ≤ s.max)

/-- `NumberSpinner.constrain_value`: no-op on empty text, otherwise clamp
above `max` down to `max`, then (a second `if`, not `elif`) clamp below `min`
up to `min`. -/
def NumberSpinner.constrain_value (s : NumberSpinner) : NumberSpinner :=
  if s.text = none then s
  else
    let s1 := if s.value > s.max then s.set_value_no_msg s.max else s
    if s1.value < s1.min then s1.set_value_no_msg s1.min else s1

/-- `NumberSpinner.__init__(min_val, max_val, initial_value)`: the input is
seeded with `initial_value` (or `min_val` when absent); if the seeded value is
not within bounds the input is reset to `str(self.min)`. -/
def NumberSpinner.init (min_val max_val : Int) (initial_value : Option Int) :
    NumberSpinner :=
  let value := initial_value.getD min_val
  let s : NumberSpinner := { min := min_val, max := max_val, text := some value }
  if s.number_valid then s else { s with text := some s.min }

/-- Which of the three spinners a message came from (the `day`/`month`/`year`
CSS classes in the source). -/
inductive DatePart
  | day
  | month
  | year
deriving DecidableEq, Repr

/-- Spin direction of a `ButtonSpin`. -/
inductive SpinDirection
  | up
  | down
deriving DecidableEq, Repr

/-- The `DateTuple` named tuple. -/
structure DateTuple where
  year : Int
  month : Int
  day : Int
deriving DecidableEq, Repr

/-- `calendar.isleap(y)`: `y % 4 == 0 and (y % 100 != 0 or y % 400 == 0)`. -/
def isleap (y : Int) : Bool :=
  decide (y % 4 = 0 ∧ (y % 100 ≠ 0 ∨ y % 400 = 0))

/-- `calendar.monthrange(y, m)[1]`: the number of days of month `m` of year
`y` in the proleptic Gregorian calendar. -/
def monthrange_days (y m : Int) : Int :=
  if m = 2 then (if isleap y then 29 else 28)
  else if m = 4 ∨ m = 6 ∨ m = 9 ∨ m = 11 then 30
  else 31

/-- Acceptance condition of the `datetime.date(y, m, d)` constructor
(`MINYEAR = 1`, `MAXYEAR = 9999`); outside it the constructor raises
`ValueError`. -/
abbrev pydate_ok (y m d : Int) : Prop :=
  1 ≤ y ∧ y ≤ 9999 ∧ 1 ≤ m ∧ m ≤ 12 ∧ 1 ≤ d ∧ d ≤ monthrange_days y m

/-- The state of a `BasicDatePicker`: its three owned spinners. -/
structure BasicDatePicker where
  day : NumberSpinner
  month : NumberSpinner
  year : NumberSpinner
deriving DecidableEq, Repr

namespace BasicDatePicker

/-- The spinner holding a given date part. -/
def get (p : BasicDatePicker) : DatePart → NumberSpinner
  | DatePart.day => p.day
  | DatePart.month => p.month
  | DatePart.year => p.year

/-- Replace the spinner holding a given date part. -/
def set (p : BasicDatePicker) : DatePart → NumberSpinner → BasicDatePicker
  | DatePart.day, s => { p with day := s }
  | DatePart.month, s => { p with month := s }
  | DatePart.year, s => { p with year := s }

/-- `BasicDatePicker.highest_day` property: if `self.month.value > 12` it first
assigns `self.month.value = 12` (a mutation performed by the read; the
`NumberChanged` this posts is queued, not processed within the read), then
returns `monthrange(self.year.value, self.month.value)[1]`. -/
def highest_day (p : BasicDatePicker) : BasicDatePicker × Int :=
  let p := if p.month.value > 12 then { p with month := p.month.set_value 12 } else p
  (p, monthrange_days p.year.value p.month.value)

/-- `BasicDatePicker.validate` (handler of `NumberChanged` from `.month,.year`):
`self.day.max = self.highest_day; self.day.constrain_value()`.  The clamp uses
`set_value_no_msg`; the `Input.Changed`-driven re-notification it may cause
only re-runs this idempotent handler and is elided from the queue. -/
def validate (p : BasicDatePicker) : BasicDatePicker :=
  let ph := p.highest_day
  let p1 := { ph.1 with day := { ph.1.day with max := ph.2 } }
  { p1 with day := p1.day.constrain_value }

/-- State effect of handling one `NumberChanged`: `_on_change` only re-emits
an external `Changed` message, and `validate` additionally runs for month and
year sources. -/
def on_number_changed (p : BasicDatePicker) : DatePart → BasicDatePicker
  | DatePart.day => p
  | DatePart.month => p.validate
  | DatePart.year => p.validate

/-- Drain a FIFO queue of pending `NumberChanged` messages. -/
def process (p : BasicDatePicker) : List DatePart → BasicDatePicker
  | [] => p
  | r :: rs => (p.on_number_changed r).process rs

/-- `BasicDatePicker._on_spin`, the rollover state machine.  `part` is the
spinner the `ButtonSpin` came from and `t` its `transient_number`.  Returns the
mutated state together with the `NumberChanged` parts posted by the value
assignments, in posting order.  In the December branch the guard already has
`self.month.value == 12`, so the `highest_day` read performs no mutation. -/
def on_spin (p : BasicDatePicker) (part : DatePart) (t : Int) :
    BasicDatePicker × List DatePart :=
  if part = DatePart.year then (p, [])
  else if part = DatePart.month ∧ t > p.month.max ∧ p.year.value ≤ p.year.max then
    let p1 := { p with year := p.year.set_value (p.year.value + 1) }
    let p2 := { p1 with month := p1.month.set_value p1.month.min }
    (p2, [DatePart.year, DatePart.month])
  else if part = DatePart.day ∧ p.month.value = 12 ∧ t = (p.highest_day).2 + 1 then
    let p1 := { p with month := p.month.set_value 1 }
    let p2 := { p1 with day := p1.day.set_value 1 }
    let p3 := { p2 with year := p2.year.set_value (p2.year.value + 1) }
    (p3, [DatePart.month, DatePart.day, DatePart.year])
  else if part = DatePart.month ∧ t < p.month.min ∧ p.year.value ≥ p.year.min then
    let p1 := { p with year := p.year.set_value (p.year.value - 1) }
    let p2 := { p1 with month := p1.month.set_value p1.month.max }
    (p2, [DatePart.year, DatePart.month])
  else if part = DatePart.day ∧ t > p.day.max ∧ p.month.value ≤ p.month.max then
    let p1 := { p with month := p.month.set_value (p.month.value + 1) }
    let p2 := { p1 with day := p1.day.set_value p1.day.min }
    (p2, [DatePart.month, DatePart.day])
  else if part = DatePart.day ∧ t = 0 ∧ p.month.value = 1 then
    if p.year.value ≠ p.year.min then
      let p1 := { p with month := p.month.set_value 12 }
      let p2 := { p1 with year := p1.year.set_value (p1.year.value - 1) }
      let p3 := { p2 with day := p2.day.set_value p2.day.max }
      (p3, [DatePart.month, DatePart.year, DatePart.day])
    else
      let p1 := { p with month := p.month.set_value 1 }
      let p2 := { p1 with day := p1.day.set_value 1 }
      (p2, [DatePart.month, DatePart.day])
  else if part = DatePart.day ∧ t < p.day.min ∧ p.month.value ≥ p.month.min then
    let p1 := { p with month := p.month.set_value (p.month.value - 1) }
    let p2 := { p1 with day := p1.day.set_value p1.day.max }
    (p2, [DatePart.month, DatePart.day])
  else (p, [])

/-- A full button press on one spinner, settled: `NumberSpinner._up_down_btn`
computes the transient `value ± 1`, commits it only when it stays within the
spinner's own bounds (posting `NumberChanged`), posts `ButtonSpin`, and the
picker then handles the queued messages in order. -/
def press (p : BasicDatePicker) (part : DatePart) (dir : SpinDirection) :
    BasicDatePicker :=
  let s := p.get part
  let t := match dir with
    | SpinDirection.up => s.value + 1
    | SpinDirection.down => s.value - 1
  let committed : Bool := match dir with
    | SpinDirection.up => decide (t ≤ s.max)
    | SpinDirection.down => decide (t ≥ s.min)
  let pc := if committed then p.set part (s.set_value t) else p
  let pn := if committed then pc.on_number_changed part else pc
  let pr := pn.on_spin part t
  pr.1.process pr.2

/-- `BasicDatePicker.date` property getter: `date(year, month, day)` from the
current field values, with the constructor's `ValueError` caught and turned
into `None`. -/
def date (p : BasicDatePicker) : Option DateTuple :=
  if pydate_ok p.year.value p.month.value p.day.value then
    some { year := p.year.value, month := p.month.value, day := p.day.value }
  else none

/-- `BasicDatePicker.date` property setter: assigns day, month, then year
(each posting `NumberChanged`), after which the queue is drained. -/
def set_date (p : BasicDatePicker) (v : DateTuple) : BasicDatePicker :=
  let p1 := { p with day := p.day.set_value v.day }
  let p2 := { p1 with month := p1.month.set_value v.month }
  let p3 := { p2 with year := p2.year.set_value v.year }
  p3.process [DatePart.day, DatePart.month, DatePart.year]

/-- `BasicDatePicker.__init__`: three spinners with calendar bounds, seeded
from `initial_value` or from `today` (`date.today()`). -/
def init (min_year : Int) (today : DateTuple) (initial_value : Option DateTuple) :
    BasicDatePicker :=
  let iv := initial_value.getD today
  { day := NumberSpinner.init 1 31 (some iv.day)
    month := NumberSpinner.init 1 12 (some iv.month)
    year := NumberSpinner.init min_year (today.year + 1) (some iv.year) }

end BasicDatePicker

/-! ### Helper lemmas -/

theorem NumberSpinner.value_some {s : NumberSpinner} {w : Int} (h : s.text = some w) :
    s.value = w := by
  simp [NumberSpinner.value, h]

theorem NumberSpinner.constrain_value_none {s : NumberSpinner} (h : s.text = none) :
    s.constrain_value = s := by
  simp [NumberSpinner.constrain_value, h]

theorem NumberSpinner.constrain_value_mem {s : NumberSpinner} {w : Int}
    (h : s.text = some w) (h1 : s.min ≤ w) (h2 : w ≤ s.max) :
    s.constrain_value = s := by
  have hv : s.value = w := NumberSpinner.value_some h
  have hne : ¬(s.text = none) := by simp [h]
  have hgt : ¬(s.value > s.max) := by omega
  have hlt : ¬(s.value < s.min) := by omega
  simp only [NumberSpinner.constrain_value, if_neg hne, if_neg hgt, if_neg hlt]

theorem NumberSpinner.constrain_value_gt {s : NumberSpinner} {w : Int}
    (h : s.text = some w) (hmm : s.min ≤ s.max) (h1 : s.max < w) :
    s.constrain_value = { s with text := some s.max } := by
  have hv : s.value = w := NumberSpinner.value_some h
  have hne : ¬(s.text = none) := by simp [h]
  have hgt : s.value > s.max := by omega
  simp only [NumberSpinner.constrain_value, if_neg hne, if_pos hgt,
    NumberSpinner.set_value_no_msg]
  rw [if_neg]
  simp only [NumberSpinner.value, Option.getD_some]
  omega

theorem NumberSpinner.constrain_value_lt {s : NumberSpinner} {w : Int}
    (h : s.text = some w) (hmm : s.min ≤ s.max) (h1 : w < s.min) :
    s.constrain_value = { s with text := some s.min } := by
  have hv : s.value = w := NumberSpinner.value_some h
  have hne : ¬(s.text = none) := by simp [h]
  have hgt : ¬(s.value > s.max) := by omega
  simp only [NumberSpinner.constrain_value, if_neg hne, if_neg hgt,
    NumberSpinner.set_value_no_msg]
  rw [if_pos (show s.value < s.min by omega)]

theorem monthrange_days_one (y : Int) : monthrange_days y 1 = 31 := by
  simp [monthrange_days]

theorem monthrange_days_twelve (y : Int) : monthrange_days y 12 = 31 := by
  simp [monthrange_days]

theorem monthrange_days_ge (y m : Int) : 28 ≤ monthrange_days y m := by
  unfold monthrange_days
  split_ifs <;> omega

theorem monthrange_days_le (y m : Int) : monthrange_days y m ≤ 31 := by
  unfold monthrange_days
  split_ifs <;> omega

theorem BasicDatePicker.highest_day_le {p : BasicDatePicker} (h : p.month.value ≤ 12) :
    p.highest_day = (p, monthrange_days p.year.value p.month.value) := by
  simp only [BasicDatePicker.highest_day]
  rw [if_neg (by omega)]

theorem BasicDatePicker.validate_eq {p : BasicDatePicker} (h : p.month.value ≤ 12) :
    p.validate =
      { p with day :=
          ({ p.day with max := monthrange_days p.year.value p.month.value }).constrain_value } := by
  simp only [BasicDatePicker.validate, BasicDatePicker.highest_day_le h]

theorem BasicDatePicker.validate_mem {p : BasicDatePicker} {mv dv : Int}
    (hm : p.month.text = some mv) (hm2 : mv ≤ 12)
    (hd : p.day.text = some dv) (hdmin : p.day.min ≤ dv)
    (hdup : dv ≤ monthrange_days p.year.value mv) :
    p.validate = { p with day := { p.day with max := monthrange_days p.year.value mv } } := by
  have hmv : p.month.value = mv := NumberSpinner.value_some hm
  rw [BasicDatePicker.validate_eq (by omega), hmv,
    NumberSpinner.constrain_value_mem (s := { p.day with max := monthrange_days p.year.value mv })
      (w := dv) hd hdmin hdup]

/-! ### Claims -/

/-- Claim C1 (code bug exhibited): the bound invariant `min ≤ value ≤ max` is
violated at a settle point.  From the settled state day 15, month 12,
year 2027 with year bounds `[2010, 2027]`, spinning month up settles with the
year field committed at 2028, outside its bounds: the rollover guard
`self.year.value <= self.year.max` is vacuously true for an in-bounds year, so
the rollover increments the year past its max and nothing constrains it. -/
theorem C1_settled_year_exceeds_max :
    ((⟨⟨1, 31, some 15⟩, ⟨1, 12, some 12⟩, ⟨2010, 2027, some 2027⟩⟩ :
        BasicDatePicker).press DatePart.month SpinDirection.up).year.text = some 2028 ∧
    ((⟨⟨1, 31, some 15⟩, ⟨1, 12, some 12⟩, ⟨2010, 2027, some 2027⟩⟩ :
        BasicDatePicker).press DatePart.month SpinDirection.up).year.number_valid = false := by
  decide

/-- Claim C2 (code bug exhibited): with the year field at its max
(bounds `[2015, 2024]`, value 2024) and month 12, a month spin up still fires
the month-overflow rollover — the guard compares with `<=`, not `<` — leaving
year 2025 (which did increase past its max) and month 1, while the claim says
no rollover occurs at year max and the year value does not increase. -/
theorem C2_month_overflow_rolls_at_year_max :
    ((⟨⟨1, 31, some 10⟩, ⟨1, 12, some 12⟩, ⟨2015, 2024, some 2024⟩⟩ :
        BasicDatePicker).press DatePart.month SpinDirection.up).year.value = 2025 ∧
    ((⟨⟨1, 31, some 10⟩, ⟨1, 12, some 12⟩, ⟨2015, 2024, some 2024⟩⟩ :
        BasicDatePicker).press DatePart.month SpinDirection.up).month.value = 1 := by
  decide

/-- Claim C7 counterexample: constructing a spinner with bounds `[1, 12]` and
initial value 99 stores 1 (`self.min`), not the nearest bound 12 as claimed:
`__init__` resets any out-of-bounds initial value to the minimum. -/
theorem C7_init_above_max_stores_min :
    (NumberSpinner.init 1 12 (some 99)).value = 1 ∧
    ¬((NumberSpinner.init 1 12 (some 99)).value = 12) := by
  decide

/-- Claim C7 as amended: with `min ≤ max`, an initial value inside the bounds
is stored unchanged, and an initial value outside the bounds (on either side)
is replaced by `min`. -/
theorem C7_init_amended (min_val max_val init_val : Int) (hmm : min_val ≤ max_val) :
    (NumberSpinner.init min_val max_val (some init_val)).value =
      if min_val ≤ init_val ∧ init_val ≤ max_val then init_val else min_val := by
  simp only [NumberSpinner.init, NumberSpinner.number_valid, NumberSpinner.value,
    Option.getD_some, decide_eq_true_eq]
  split_ifs with hc <;> simp

/-- Witness for C7's amended theorem at `(min, max, initial) = (1, 12, 7)` (in
range, stored unchanged). -/
theorem C7_init_amended_witness : (NumberSpinner.init 1 12 (some 7)).value = 7 := by
  have h := C7_init_amended 1 12 7 (by norm_num)
  simpa using h

/-- Claim C8: with `min ≤ max`, `constrain_value` is a no-op on an empty
representation; on text `w` it clamps above `max` to `max`, below `min` to
`min`, and leaves in-range values unchanged, so the result is in `[min, max]`;
and it is idempotent. -/
theorem C8_constrain_clamps (s : NumberSpinner) (hmm : s.min ≤ s.max) :
    (s.text = none → s.constrain_value = s) ∧
    (∀ w, s.text = some w →
      s.min ≤ s.constrain_value.value ∧ s.constrain_value.value ≤ s.max ∧
      s.constrain_value.value =
        (if s.max < w then s.max else if w < s.min then s.min else w)) ∧
    s.constrain_value.constrain_value = s.constrain_value := by
  refine ⟨fun h => NumberSpinner.constrain_value_none h, fun w h => ?_, ?_⟩
  · rcases lt_or_le s.max w with h1 | h1
    · rw [NumberSpinner.constrain_value_gt h hmm h1]
      refine ⟨?_, ?_, ?_⟩ <;> simp [NumberSpinner.value] <;> omega
    · rcases lt_or_le w s.min with h2 | h2
      · rw [NumberSpinner.constrain_value_lt h hmm h2]
        refine ⟨?_, ?_, ?_⟩ <;> simp [NumberSpinner.value] <;> omega
      · rw [NumberSpinner.constrain_value_mem h h2 h1]
        have hv : s.value = w := NumberSpinner.value_some h
        refine ⟨by omega, by omega, ?_⟩
        rw [if_neg (by omega), if_neg (by omega)]
        omega
  · rcases ht : s.text with _ | w
    · rw [NumberSpinner.constrain_value_none ht, NumberSpinner.constrain_value_none ht]
    · rcases lt_or_le s.max w with h1 | h1
      · rw [NumberSpinner.constrain_value_gt ht hmm h1]
        exact NumberSpinner.constrain_value_mem rfl hmm le_rfl
      · rcases lt_or_le w s.min with h2 | h2
        · rw [NumberSpinner.constrain_value_lt ht hmm h2]
          exact NumberSpinner.constrain_value_mem rfl le_rfl hmm
        · rw [NumberSpinner.constrain_value_mem ht h2 h1,
            NumberSpinner.constrain_value_mem ht h2 h1]

/-- Witness for C8 at the spinner `⟨1, 12, some 99⟩`: constraining clamps the
value to the max, 12. -/
theorem C8_constrain_clamps_witness :
    (⟨1, 12, some 99⟩ : NumberSpinner).constrain_value.value = 12 := by
  have h := (C8_constrain_clamps ⟨1, 12, some 99⟩ (by norm_num)).2.1 99 rfl
  rw [h.2.2]
  norm_num

/-- Claim C9: the `date` getter is total (the `ValueError` of impossible
combinations is caught): it returns the date exactly when the three values
form a `datetime.date`-constructible date, returns `None` otherwise, and in
particular returns `None` (not an error) for day 31 in month 2. -/
theorem C9_date_total (p : BasicDatePicker) :
    (pydate_ok p.year.value p.month.value p.day.value →
      p.date = some ⟨p.year.value, p.month.value, p.day.value⟩) ∧
    (¬pydate_ok p.year.value p.month.value p.day.value → p.date = none) ∧
    (p.month.value = 2 → p.day.value = 31 → p.date = none) := by
  refine ⟨fun h => by simp [BasicDatePicker.date, if_pos h],
    fun h => by simp [BasicDatePicker.date, if_neg h], fun hm hd => ?_⟩
  have h29 : monthrange_days p.year.value 2 ≤ 29 := by
    unfold monthrange_days
    split_ifs <;> omega
  have hno : ¬pydate_ok p.year.value p.month.value p.day.value := by
    rw [hm, hd]
    rintro ⟨-, -, -, -, -, h6⟩
    omega
  simp [BasicDatePicker.date, if_neg hno]

/-- Witness for C9 at the state year 2023, month 2, day 31: the getter yields
`None`. -/
theorem C9_date_total_witness :
    (⟨⟨1, 31, some 31⟩, ⟨1, 12, some 2⟩, ⟨2010, 2024, some 2023⟩⟩ :
        BasicDatePicker).date = none := by
  exact (C9_date_total _).2.2 rfl rfl

/-- Claim C10: reading `highest_day` when the committed month value exceeds 12
mutates the month field to 12 before computing the ceiling; the day and year
fields are unchanged by the read, and the returned ceiling is
`monthrange(year, 12)[1]`. -/
theorem C10_highest_day_mutates (p : BasicDatePicker) (mv : Int)
    (hm : p.month.text = some mv) (h13 : 12 < mv) :
    (p.highest_day).1.month.text = some 12 ∧
    (p.highest_day).1.month.value = 12 ∧
    (p.highest_day).1.day = p.day ∧
    (p.highest_day).1.year = p.year ∧
    (p.highest_day).2 = monthrange_days p.year.value 12 := by
  have hmv : p.month.value = mv := NumberSpinner.value_some hm
  have hc : p.month.value > 12 := by omega
  simp only [BasicDatePicker.highest_day]
  rw [if_pos hc]
  simp [NumberSpinner.set_value, NumberSpinner.value]

/-- Witness for C10 at month 13: the read commits month 12 and returns 31. -/
theorem C10_highest_day_mutates_witness :
    ((⟨⟨1, 31, some 10⟩, ⟨1, 12, some 13⟩, ⟨2010, 2024, some 2023⟩⟩ :
        BasicDatePicker).highest_day).1.month.value = 12 ∧
    ((⟨⟨1, 31, some 10⟩, ⟨1, 12, some 13⟩, ⟨2010, 2024, some 2023⟩⟩ :
        BasicDatePicker).highest_day).2 = monthrange_days 2023 12 := by
  have h := C10_highest_day_mutates
    ⟨⟨1, 31, some 10⟩, ⟨1, 12, some 13⟩, ⟨2010, 2024, some 2023⟩⟩ 13 rfl (by norm_num)
  exact ⟨h.2.1, h.2.2.2.2⟩

/-- Claim C6: handling a committed month or year change runs `validate`, which
recomputes `day.max` as `monthrange(year.value, month.value)[1]` (the proleptic
Gregorian day count, leap rule `y % 4 == 0 and (y % 100 != 0 or y % 400 == 0)`)
and constrains the day value to that ceiling (clamping above the ceiling down
to it and below 1 up to 1). -/
theorem C6_day_ceiling (p : BasicDatePicker) (part : DatePart) (mv dv : Int)
    (hpart : part = DatePart.month ∨ part = DatePart.year)
    (hm : p.month.text = some mv) (hm1 : 1 ≤ mv) (hm2 : mv ≤ 12)
    (hd : p.day.text = some dv) (hdmin : p.day.min = 1) :
    (p.on_number_changed part).day.max = monthrange_days p.year.value mv ∧
    (p.on_number_changed part).day.value =
      (if monthrange_days p.year.value mv < dv then monthrange_days p.year.value mv
        else if dv < 1 then 1 else dv) ∧
    1 ≤ (p.on_number_changed part).day.value ∧
    (p.on_number_changed part).day.value ≤ monthrange_days p.year.value mv := by
  have hmv : p.month.value = mv := NumberSpinner.value_some hm
  have honc : p.on_number_changed part = p.validate := by
    rcases hpart with h | h <;> rw [h] <;> rfl
  rw [honc, BasicDatePicker.validate_eq (by omega), hmv]
  set M := monthrange_days p.year.value mv with hMdef
  have hM : 28 ≤ M := monthrange_days_ge _ _
  rcases lt_or_le M dv with h1 | h1
  · rw [NumberSpinner.constrain_value_gt (s := { p.day with max := M }) hd
      (show p.day.min ≤ M by omega) h1]
    refine ⟨rfl, ?_, ?_, ?_⟩
    · show M = _
      rw [if_pos h1]
    · show (1 : Int) ≤ M
      omega
    · show M ≤ M
      omega
  · rcases lt_or_le dv 1 with h2 | h2
    · rw [NumberSpinner.constrain_value_lt (s := { p.day with max := M }) hd
        (show p.day.min ≤ M by omega) (show dv < p.day.min by omega)]
      refine ⟨rfl, ?_, ?_, ?_⟩
      · show p.day.min = _
        rw [if_neg (by omega), if_pos h2, hdmin]
      · show (1 : Int) ≤ p.day.min
        omega
      · show p.day.min ≤ M
        omega
    · rw [NumberSpinner.constrain_value_mem (s := { p.day with max := M }) hd
        (show p.day.min ≤ dv by omega) (show dv ≤ M from h1)]
      have hsv : ({ p.day with max := M } : NumberSpinner).value = dv :=
        NumberSpinner.value_some hd
      refine ⟨rfl, ?_, ?_, ?_⟩
      · rw [hsv, if_neg (by omega), if_neg (by omega)]
      · rw [hsv]
        omega
      · rw [hsv]
        omega

/-- Witness for C6: from day 31, month 3, year 2024, a committed month change
to February (month text 2) recomputes `day.max` to 29 (2024 is a leap year)
and re-clamps the day value from 31 to 29. -/
theorem C6_day_ceiling_witness :
    ((⟨⟨1, 31, some 31⟩, ⟨1, 12, some 2⟩, ⟨2010, 2025, some 2024⟩⟩ :
        BasicDatePicker).on_number_changed DatePart.month).day.max = 29 ∧
    ((⟨⟨1, 31, some 31⟩, ⟨1, 12, some 2⟩, ⟨2010, 2025, some 2024⟩⟩ :
        BasicDatePicker).on_number_changed DatePart.month).day.value = 29 := by
  have h := C6_day_ceiling
    ⟨⟨1, 31, some 31⟩, ⟨1, 12, some 2⟩, ⟨2010, 2025, some 2024⟩⟩ DatePart.month 2 31
    (Or.inl rfl) rfl (by norm_num) (by norm_num) rfl rfl
  refine ⟨?_, ?_⟩
  · rw [h.1]; decide
  · rw [h.2.1]; decide

/-- Claim C3: assigning any valid calendar date through the `date` setter and
reading the `date` getter back yields the same date.  The setter assigns all
three fields unconditionally, and the subsequent month/year `NumberChanged`
handling recomputes `day.max` from the newly assigned month and year before
constraining the day, so a day exceeding the previously stored month's
day-count survives the round trip. -/
theorem C3_date_roundtrip (p : BasicDatePicker) (y m d : Int)
    (hdmin : p.day.min = 1)
    (hymin : p.year.min ≤ y) (hymax : y ≤ p.year.max)
    (hok : pydate_ok y m d) :
    (p.set_date ⟨y, m, d⟩).date = some ⟨y, m, d⟩ := by
  obtain ⟨hy1, hy2, hm1, hm2, hd1, hd2⟩ := hok
  obtain ⟨⟨dmin, dmax, dtext⟩, ⟨mmin, mmax, mtext⟩, ⟨ymin, ymax, ytext⟩⟩ := p
  dsimp only at hdmin hymin hymax
  subst hdmin
  simp only [BasicDatePicker.set_date, BasicDatePicker.process,
    BasicDatePicker.on_number_changed, NumberSpinner.set_value]
  rw [@BasicDatePicker.validate_mem
    ⟨⟨1, dmax, some d⟩, ⟨mmin, mmax, some m⟩, ⟨ymin, ymax, some y⟩⟩ m d
    rfl hm2 rfl hd1 hd2]
  dsimp only [NumberSpinner.value, Option.getD]
  rw [@BasicDatePicker.validate_mem
    ⟨⟨1, monthrange_days y m, some d⟩, ⟨mmin, mmax, some m⟩, ⟨ymin, ymax, some y⟩⟩ m d
    rfl hm2 rfl hd1 hd2]
  show (if pydate_ok y m d then some (⟨y, m, d⟩ : DateTuple) else none) = some ⟨y, m, d⟩
  rw [if_pos ⟨hy1, hy2, hm1, hm2, hd1, hd2⟩]

/-- Witness for C3: from a picker holding 2023-02-03 with the day ceiling
already truncated to 28, setting the date 2024-02-29 (a leap day above the old
ceiling) and reading it back yields 2024-02-29. -/
theorem C3_date_roundtrip_witness :
    ((⟨⟨1, 28, some 3⟩, ⟨1, 12, some 2⟩, ⟨2010, 2025, some 2023⟩⟩ :
        BasicDatePicker).set_date ⟨2024, 2, 29⟩).date = some ⟨2024, 2, 29⟩ :=
  C3_date_roundtrip _ 2024 2 29 rfl (by norm_num) (by norm_num) (by decide)

/-- Claim C4: spinning the day up from December's last day (month 12, day 31,
transient 32 = `highest_day + 1`) rolls directly into the next year:
month 1, day 1, year + 1.  The dedicated December branch is placed before the
general day-overflow branch in `_on_spin`'s `elif` chain, which is why the
result is a year increment rather than month 13. -/
theorem C4_december_day_overflow (p : BasicDatePicker) (yv : Int)
    (hm : p.month.text = some 12)
    (hd : p.day.text = some 31) (hdmax : p.day.max = 31) (hdmin : p.day.min = 1)
    (hy : p.year.text = some yv) :
    (p.press DatePart.day SpinDirection.up).year.value = yv + 1 ∧
    (p.press DatePart.day SpinDirection.up).month.value = 1 ∧
    (p.press DatePart.day SpinDirection.up).day.value = 1 := by
  obtain ⟨⟨dmin, dmax, dtext⟩, ⟨mmin, mmax, mtext⟩, ⟨ymin, ymax, ytext⟩⟩ := p
  dsimp only at hm hd hdmax hdmin hy
  subst hm hd hdmax hdmin hy
  simp [BasicDatePicker.press, BasicDatePicker.get, BasicDatePicker.on_spin,
    BasicDatePicker.process, BasicDatePicker.on_number_changed, BasicDatePicker.validate,
    BasicDatePicker.highest_day, NumberSpinner.value, NumberSpinner.set_value,
    NumberSpinner.set_value_no_msg, NumberSpinner.constrain_value, monthrange_days]

/-- Witness for C4: spinning day up from 2023-12-31 yields 2024-01-01. -/
theorem C4_december_day_overflow_witness :
    ((⟨⟨1, 31, some 31⟩, ⟨1, 12, some 12⟩, ⟨2010, 2024, some 2023⟩⟩ :
        BasicDatePicker).press DatePart.day SpinDirection.up).year.value = 2024 ∧
    ((⟨⟨1, 31, some 31⟩, ⟨1, 12, some 12⟩, ⟨2010, 2024, some 2023⟩⟩ :
        BasicDatePicker).press DatePart.day SpinDirection.up).month.value = 1 ∧
    ((⟨⟨1, 31, some 31⟩, ⟨1, 12, some 12⟩, ⟨2010, 2024, some 2023⟩⟩ :
        BasicDatePicker).press DatePart.day SpinDirection.up).day.value = 1 :=
  C4_december_day_overflow _ 2023 rfl rfl rfl rfl rfl

/-- Claim C5: spinning the day down at day 1, month 1 (a committed in-bounds
day field makes day 1 the only state with transient below 1, namely 0): if the
year is not at its minimum, the state rolls to the previous year's December
last day (month 12, year - 1, day 31); if the year sits at its minimum, the
state clamps in place to day 1, month 1 with the year unchanged. -/
theorem C5_january_day_underflow (p : BasicDatePicker) (yv : Int)
    (hm : p.month.text = some 1)
    (hd : p.day.text = some 1) (hdmax : p.day.max = 31) (hdmin : p.day.min = 1)
    (hy : p.year.text = some yv) :
    (yv ≠ p.year.min →
      (p.press DatePart.day SpinDirection.down).year.value = yv - 1 ∧
      (p.press DatePart.day SpinDirection.down).month.value = 12 ∧
      (p.press DatePart.day SpinDirection.down).day.value = 31) ∧
    (yv = p.year.min →
      (p.press DatePart.day SpinDirection.down).year.value = yv ∧
      (p.press DatePart.day SpinDirection.down).month.value = 1 ∧
      (p.press DatePart.day SpinDirection.down).day.value = 1) := by
  obtain ⟨⟨dmin, dmax, dtext⟩, ⟨mmin, mmax, mtext⟩, ⟨ymin, ymax, ytext⟩⟩ := p
  dsimp only at hm hd hdmax hdmin hy ⊢
  subst hm hd hdmax hdmin hy
  constructor
  · intro hne
    simp [BasicDatePicker.press, BasicDatePicker.get, BasicDatePicker.on_spin,
      BasicDatePicker.process, BasicDatePicker.on_number_changed, BasicDatePicker.validate,
      BasicDatePicker.highest_day, NumberSpinner.value, NumberSpinner.set_value,
      NumberSpinner.set_value_no_msg, NumberSpinner.constrain_value, monthrange_days, hne]
  · intro heq
    subst heq
    simp [BasicDatePicker.press, BasicDatePicker.get, BasicDatePicker.on_spin,
      BasicDatePicker.process, BasicDatePicker.on_number_changed, BasicDatePicker.validate,
      BasicDatePicker.highest_day, NumberSpinner.value, NumberSpinner.set_value,
      NumberSpinner.set_value_no_msg, NumberSpinner.constrain_value, monthrange_days]

/-- Witness for C5: spinning day down from 2015-01-01 with minimum year 2010
yields 2014-12-31. -/
theorem C5_january_day_underflow_witness :
    ((⟨⟨1, 31, some 1⟩, ⟨1, 12, some 1⟩, ⟨2010, 2024, some 2015⟩⟩ :
        BasicDatePicker).press DatePart.day SpinDirection.down).year.value = 2014 ∧
    ((⟨⟨1, 31, some 1⟩, ⟨1, 12, some 1⟩, ⟨2010, 2024, some 2015⟩⟩ :
        BasicDatePicker).press DatePart.day SpinDirection.down).month.value = 12 ∧
    ((⟨⟨1, 31, some 1⟩, ⟨1, 12, some 1⟩, ⟨2010, 2024, some 2015⟩⟩ :
        BasicDatePicker).press DatePart.day SpinDirection.down).day.value = 31 :=
  (C5_january_day_underflow _ 2015 rfl rfl rfl rfl rfl).1 (by norm_num)
